import Mathlib

/-!
Shallow embedding of the agentweb session-streaming relay.

The definitions below are translated from the TypeScript sources of the
repository:

- server types (src/server/types.ts): the SDK content block, incoming SDK
  message, outbound frontend message and persisted session record;
- the event transformer and stream driver of the session query handler
  (src/server/query-handler.ts, session path);
- the event transformer of the legacy handleQuery path
  (src/server/query-handler.ts, legacy part);
- the WebSocket connection handler of src/server/server.ts, modelled as a
  pure step function over a per-connection state, recording its side effects
  (controller creation, closing, prompt forwarding, messages sent to the
  client) as an explicit effect list;
- the file-backed session store of src/server/server.ts (session-manager
  part), modelled as an association list keyed by the sanitized file path.
-/

namespace Agentweb

/-- A JSON value as far as the relay inspects it: either a string, or any
other value carried opaquely together with its JSON serialization (the code
only ever applies JSON.stringify to non-string values). -/
inductive JsonValue where
  | str (s : String)
  | other (serialized : String)
deriving DecidableEq

/-- The input mapping of a tool_use block (Record of string to unknown in
the source); the code treats the values opaquely. -/
abbrev SDKInput := List (String × JsonValue)

mutual

/-- SDKContentBlock from src/server/types.ts: one content block of an SDK
message.  All fields are optional in the source except type. -/
inductive SDKContentBlock where
  | mk (type : String) (text : Option String) (thinking : Option String)
       (id : Option String) (name : Option String) (input : Option SDKInput)
       (tool_use_id : Option String) (content : Option BlockContent)
       (is_error : Option Bool) : SDKContentBlock

/-- The content field of a block: a string, a list of sub-blocks, or any
other JSON value (carried with its serialization). -/
inductive BlockContent where
  | str (s : String)
  | blocks (bs : List SDKContentBlock)
  | other (serialized : String)

end

def SDKContentBlock.type : SDKContentBlock → String
  | .mk t _ _ _ _ _ _ _ _ => t

def SDKContentBlock.text : SDKContentBlock → Option String
  | .mk _ t _ _ _ _ _ _ _ => t

def SDKContentBlock.thinking : SDKContentBlock → Option String
  | .mk _ _ t _ _ _ _ _ _ => t

def SDKContentBlock.id : SDKContentBlock → Option String
  | .mk _ _ _ i _ _ _ _ _ => i

def SDKContentBlock.name : SDKContentBlock → Option String
  | .mk _ _ _ _ n _ _ _ _ => n

def SDKContentBlock.input : SDKContentBlock → Option SDKInput
  | .mk _ _ _ _ _ i _ _ _ => i

def SDKContentBlock.tool_use_id : SDKContentBlock → Option String
  | .mk _ _ _ _ _ _ i _ _ => i

def SDKContentBlock.content : SDKContentBlock → Option BlockContent
  | .mk _ _ _ _ _ _ _ c _ => c

def SDKContentBlock.is_error : SDKContentBlock → Option Bool
  | .mk _ _ _ _ _ _ _ _ e => e

/-- The message body of an incoming SDK message (message?: {content?: ...}). -/
structure MessageBody where
  content : Option (List SDKContentBlock)

/-- SDKIncomingMessage from src/server/types.ts. -/
structure SDKIncomingMessage where
  type : String
  message : Option MessageBody
  subtype : Option String
  result : Option String
  is_error : Option Bool
  errors : Option (List String)
  content : Option JsonValue

/-- The outbound frontend message (named SDKMessage in the source, an open
record with a type discriminant; here the closed union of every shape the
server actually emits). -/
inductive SDKMessage where
  | text (content : String)
  | tool_use (id : Option String) (name : Option String) (input : SDKInput)
  | tool_result (tool_use_id : Option String) (content : String) (is_error : Bool)
  | thinking (content : String)
  | error (error : String)
  | start (session_id : Option String)
  | «end» (stop_reason : String)
  | session_created
  | session_resumed (sdkSessionId : String)
deriving DecidableEq

/-- JavaScript truthiness of an optional string field: present and
non-empty. -/
def truthy : Option String → Prop
  | none => False
  | some s => s ≠ ""

instance (o : Option String) : Decidable (truthy o) :=
  match o with
  | none => isFalse (fun h => h)
  | some s => inferInstanceAs (Decidable (s ≠ ""))

/-- Messages produced for one content block of an assistant event
(query-handler.ts, session path, assistant case). -/
def assistantBlockMessages (b : SDKContentBlock) : List SDKMessage :=
  if b.type = "text" ∧ truthy b.text then
    [SDKMessage.text (b.text.getD "")]
  else if b.type = "tool_use" then
    [SDKMessage.tool_use b.id b.name (b.input.getD [])]
  else if b.type = "thinking" ∧ truthy b.thinking then
    [SDKMessage.thinking (b.thinking.getD "")]
  else
    []

/-- The string content computed for a tool_result block: pass a string
through verbatim, join the text of text sub-blocks with newlines, otherwise
use the JSON serialization of the value (absent content stringifies to the
undefined value, rendered here as its textual form). -/
def toolResultContent : Option BlockContent → String
  | some (.str s) => s
  | some (.blocks bs) =>
      String.intercalate "\n"
        ((bs.filter (fun c => c.type = "text")).map (fun c => c.text.getD ""))
  | some (.other j) => j
  | none => "undefined"

/-- Messages produced for one content block of a user event
(query-handler.ts, session path, user case). -/
def userBlockMessages (b : SDKContentBlock) : List SDKMessage :=
  if b.type = "tool_result" then
    [SDKMessage.tool_result b.tool_use_id (toolResultContent b.content)
      (b.is_error.getD false)]
  else
    []

/-- The optional block list of an incoming message (message?.content). -/
def messageBlocks (m : SDKIncomingMessage) : Option (List SDKContentBlock) :=
  m.message.bind MessageBody.content

/-- transformSDKMessage of the session path (query-handler.ts lines
170-271): flatten one SDK message into frontend messages.  The result case
deliberately emits no text message. -/
def transformSDKMessage (m : SDKIncomingMessage) : List SDKMessage :=
  if m.type = "assistant" then
    match messageBlocks m with
    | some bs => bs.flatMap assistantBlockMessages
    | none => []
  else if m.type = "user" then
    match messageBlocks m with
    | some bs => bs.flatMap userBlockMessages
    | none => []
  else if m.type = "result" then
    match m.is_error, m.errors with
    | some true, some errs => errs.map SDKMessage.error
    | _, _ => []
  else if m.type = "system" then
    []
  else
    match m.content with
    | some (JsonValue.str s) => [SDKMessage.text s]
    | some (JsonValue.other j) => [SDKMessage.text j]
    | none => []

/-- transformSDKMessage of the legacy handleQuery path (query-handler.ts
legacy part, lines 334-438).  Identical to the session path except that the
result case emits a text message for a success result with a truthy result
string, and the default case requires a truthy content value. -/
def transformSDKMessageLegacy (m : SDKIncomingMessage) : List SDKMessage :=
  if m.type = "assistant" then
    match messageBlocks m with
    | some bs => bs.flatMap assistantBlockMessages
    | none => []
  else if m.type = "user" then
    match messageBlocks m with
    | some bs => bs.flatMap userBlockMessages
    | none => []
  else if m.type = "result" then
    if m.subtype = some "success" ∧ truthy m.result then
      [SDKMessage.text (m.result.getD "")]
    else
      match m.is_error, m.errors with
      | some true, some errs => errs.map SDKMessage.error
      | _, _ => []
  else if m.type = "system" then
    []
  else
    match m.content with
    | some (JsonValue.str s) => if s ≠ "" then [SDKMessage.text s] else []
    | some (JsonValue.other j) => [SDKMessage.text j]
    | none => []

/-- Outcome of consuming the backend stream: it either completes normally
or raises with an error message. -/
inductive StreamOutcome where
  | ok
  | failed (message : String)
deriving DecidableEq

/-- Messages emitted for one consumed stream event by streamMessages
(query-handler.ts lines 139-156): the transformed messages, followed by an
end marker when the event is a result. -/
def streamEventMessages (e : SDKIncomingMessage) : List SDKMessage :=
  transformSDKMessage e ++
    (if e.type = "result" then [SDKMessage.«end» "end_turn"] else [])

/-- streamMessages (query-handler.ts lines 135-164) as a function of the
consumed event prefix and the stream outcome: each event is transformed and
emitted in arrival order, and a stream failure is converted into a single
error message by the catch branch. -/
def streamMessages (events : List SDKIncomingMessage)
    (outcome : StreamOutcome) : List SDKMessage :=
  events.flatMap streamEventMessages ++
    (match outcome with
     | .ok => []
     | .failed s => [SDKMessage.error s])

/-- sendMessage of a session controller (query-handler.ts lines 56-72): a
start message carrying the session id when known is emitted first, before
the backend send; a failing send is converted into a single typed error
message instead of being rethrown. -/
def sendMessageMessages (sessionId : Option String)
    (sendResult : Except String Unit) : List SDKMessage :=
  SDKMessage.start sessionId ::
    (match sendResult with
     | .ok _ => []
     | .error e => [SDKMessage.error e])

/-- Messages of legacy handleQuery (query-handler.ts legacy part, lines
282-328): start marker, the transformed event stream, then an end marker on
normal completion or one error message when the SDK call raises. -/
def handleQueryMessages (sessionId : String)
    (events : List SDKIncomingMessage) (outcome : StreamOutcome) :
    List SDKMessage :=
  SDKMessage.start (some sessionId) ::
    (events.flatMap transformSDKMessageLegacy ++
      (match outcome with
       | .ok => [SDKMessage.«end» "end_turn"]
       | .failed e => [SDKMessage.error e]))

/-- True for the terminal protocol messages: end markers and errors. -/
def isTerminal : SDKMessage → Bool
  | .«end» _ => true
  | .error _ => true
  | _ => false

/-- True for text messages. -/
def isText : SDKMessage → Bool
  | .text _ => true
  | _ => false

/-- An inbound client command (the ClientMessage interface of server.ts):
a type discriminant plus the optional prompt and sdkSessionId fields read
by the handler.  The opaque options field is not inspected by any of the
modelled control flow and is omitted. -/
structure ClientMessage where
  type : String
  prompt : Option String
  sdkSessionId : Option String
deriving DecidableEq

/-- Per-connection server state: the controller bound to the connection in
the activeSessions registry, identified by a numeric handle, plus a counter
supplying fresh controller identities. -/
structure ConnState where
  bound : Option Nat
  nextId : Nat
deriving DecidableEq

/-- One observable side effect of the connection handler: closing a
controller, creating one (createSession), resuming one (resumeSession),
forwarding a prompt to a controller via sendMessage, or sending a message
to the client. -/
inductive Effect where
  | close (controller : Nat)
  | create (controller : Nat)
  | resume (controller : Nat) (sdkSessionId : String)
  | forward (controller : Nat) (prompt : String)
  | send (message : SDKMessage)
deriving DecidableEq

/-- The effects that close a currently bound controller, if any. -/
def closeBound (st : ConnState) : List Effect :=
  match st.bound with
  | some i => [Effect.close i]
  | none => []

/-- The WebSocket message handler of server.ts (lines 191-302) as a step
function from an inbound command and the connection state to the emitted
effect list and the next state.  Truthiness of the prompt and sdkSessionId
fields follows the JavaScript source: an absent or empty string field fails
the check. -/
def handleClientMessage (msg : ClientMessage) (st : ConnState) :
    List Effect × ConnState :=
  if msg.type = "create_session" then
    (closeBound st ++
       [Effect.create st.nextId, Effect.send SDKMessage.session_created],
     ⟨some st.nextId, st.nextId + 1⟩)
  else if msg.type = "resume_session" then
    if truthy msg.sdkSessionId then
      let sid := msg.sdkSessionId.getD ""
      (closeBound st ++
         [Effect.resume st.nextId sid,
          Effect.send (SDKMessage.session_resumed sid)],
       ⟨some st.nextId, st.nextId + 1⟩)
    else
      ([Effect.send (SDKMessage.error "Missing sdkSessionId for resume")], st)
  else if msg.type = "send_message" then
    if truthy msg.prompt then
      let p := msg.prompt.getD ""
      match st.bound with
      | some i => ([Effect.forward i p], st)
      | none =>
          ([Effect.create st.nextId, Effect.forward st.nextId p],
           ⟨some st.nextId, st.nextId + 1⟩)
    else
      ([Effect.send (SDKMessage.error "Missing required field: prompt")], st)
  else if msg.type = "stop" then
    (closeBound st ++ [Effect.send (SDKMessage.«end» "user_stopped")],
     ⟨none, st.nextId⟩)
  else
    -- legacy support: treat as send_message when a truthy prompt is present
    if truthy msg.prompt then
      let p := msg.prompt.getD ""
      match st.bound with
      | some i => ([Effect.forward i p], st)
      | none =>
          ([Effect.create st.nextId, Effect.forward st.nextId p],
           ⟨some st.nextId, st.nextId + 1⟩)
    else
      ([], st)

/-- The close handler of server.ts (lines 304-312): on transport
disconnect, close any bound controller and remove the registry entry. -/
def handleDisconnect (st : ConnState) : List Effect × ConnState :=
  (closeBound st, ⟨none, st.nextId⟩)

/-- The messages sent to the client within an effect list. -/
def sentMessages (effects : List Effect) : List SDKMessage :=
  effects.filterMap (fun e =>
    match e with
    | .send m => some m
    | _ => none)

/-- The persisted session record (types.ts). -/
structure Session where
  id : String
  name : String
  createdAt : String
  updatedAt : String
  messages : List SDKMessage
deriving DecidableEq

/-- The sessions directory (a constant path under the home directory). -/
def sessionsDir : String := ".agentweb/sessions"

/-- The id sanitization inside getSessionPath (session-manager part of
server.ts): every character outside [a-zA-Z0-9_-] becomes an
underscore. -/
def sanitizeId (id : String) : String :=
  String.mk (id.toList.map (fun c =>
    if c.isAlphanum ∨ c = '_' ∨ c = '-' then c else '_'))

/-- getSessionPath: the storage file path of a session id. -/
def getSessionPath (id : String) : String :=
  sessionsDir ++ "/" ++ sanitizeId id ++ ".json"

/-- The on-disk session store, modelled as an association list from file
path to the stored record; the newest write for a path shadows older
ones. -/
abbrev SessionStore := List (String × Session)

/-- saveSession: whole-record overwrite of the file at the sanitized
path. -/
def saveSession (session : Session) (store : SessionStore) : SessionStore :=
  (getSessionPath session.id, session) :: store

/-- getSession: read the file at the sanitized path, null when absent. -/
def getSession (id : String) (store : SessionStore) : Option Session :=
  store.lookup (getSessionPath id)

/-- deleteSession: unlink the file at the sanitized path, reporting whether
it existed. -/
def deleteSession (id : String) (store : SessionStore) :
    Bool × SessionStore :=
  ((store.lookup (getSessionPath id)).isSome,
   store.filter (fun entry => entry.1 ≠ getSessionPath id))

/-! Concrete inputs used by individual claims. -/

/-- An assistant event with a single text block X. -/
def assistantTextXEvent : SDKIncomingMessage :=
  ⟨"assistant",
   some ⟨some [.mk "text" (some "X") none none none none none none none]⟩,
   none, none, none, none, none⟩

/-- A success result event repeating the final answer X in its result
field. -/
def resultSuccessXEvent : SDKIncomingMessage :=
  ⟨"result", none, some "success", some "X", none, none, none⟩

/-- A result event reporting failure with one error string. -/
def resultErrorEvent : SDKIncomingMessage :=
  ⟨"result", none, none, none, some true, some ["boom"], none⟩

/-- A success result event with no error payload. -/
def resultCleanEvent : SDKIncomingMessage :=
  ⟨"result", none, some "success", some "done", none, none, none⟩

/-- An assistant event with one tool_use block (id t1, name Read, input
with file_path). -/
def assistantToolUseEvent : SDKIncomingMessage :=
  ⟨"assistant",
   some ⟨some [.mk "tool_use" none none (some "t1") (some "Read")
     (some [("file_path", JsonValue.str "/a.txt")]) none none none]⟩,
   none, none, none, none, none⟩

/-- A user event with one tool_result block for t1 whose content is the
string hello and whose is_error field is absent. -/
def userToolResultEvent : SDKIncomingMessage :=
  ⟨"user",
   some ⟨some [.mk "tool_result" none none none none none (some "t1")
     (some (BlockContent.str "hello")) none]⟩,
   none, none, none, none, none⟩

/-- An assistant event with one tool_use block whose input field is
absent. -/
def assistantToolUseNoInputEvent : SDKIncomingMessage :=
  ⟨"assistant",
   some ⟨some [.mk "tool_use" none none (some "t2") (some "Read")
     none none none none]⟩,
   none, none, none, none, none⟩

/-- The stop command of the wire protocol. -/
def stopCommand : ClientMessage := ⟨"stop", none, none⟩

/-- A session record whose id contains a character outside the safe set. -/
def collisionSession : Session :=
  ⟨"a/b", "demo", "2024-01-01", "2024-01-02", []⟩

/-! Helper lemmas shared by the claim theorems. -/

theorem filter_flatMap_nil {α β} (p : β → Bool) (f : α → List β)
    (hf : ∀ a, (f a).filter p = []) (l : List α) :
    (l.flatMap f).filter p = [] := by
  induction l with
  | nil => rfl
  | cons a l ih => simp [List.flatMap_cons, List.filter_append, hf, ih]

theorem assistantBlock_no_terminal (b : SDKContentBlock) :
    (assistantBlockMessages b).filter isTerminal = [] := by
  unfold assistantBlockMessages
  split_ifs <;> rfl

theorem userBlock_no_terminal (b : SDKContentBlock) :
    (userBlockMessages b).filter isTerminal = [] := by
  unfold userBlockMessages
  split_ifs <;> rfl

theorem transform_no_terminal (m : SDKIncomingMessage)
    (hm : m.type ≠ "result") :
    (transformSDKMessage m).filter isTerminal = [] := by
  unfold transformSDKMessage
  by_cases h1 : m.type = "assistant"
  · rw [if_pos h1]
    cases hb : messageBlocks m with
    | some bs => exact filter_flatMap_nil _ _ assistantBlock_no_terminal bs
    | none => rfl
  · rw [if_neg h1]
    by_cases h2 : m.type = "user"
    · rw [if_pos h2]
      cases hb : messageBlocks m with
      | some bs => exact filter_flatMap_nil _ _ userBlock_no_terminal bs
      | none => rfl
    · rw [if_neg h2, if_neg hm]
      by_cases h4 : m.type = "system"
      · rw [if_pos h4]; rfl
      · rw [if_neg h4]
        cases hc : m.content with
        | some j => cases j <;> rfl
        | none => rfl

theorem streamEvent_no_terminal (e : SDKIncomingMessage)
    (he : e.type ≠ "result") :
    (streamEventMessages e).filter isTerminal = [] := by
  unfold streamEventMessages
  rw [if_neg he]
  simp [List.filter_append, transform_no_terminal e he]

theorem events_no_terminal (es : List SDKIncomingMessage)
    (hes : ∀ e ∈ es, e.type ≠ "result") :
    (es.flatMap streamEventMessages).filter isTerminal = [] := by
  induction es with
  | nil => rfl
  | cons a es ih =>
      simp only [List.flatMap_cons, List.filter_append]
      rw [streamEvent_no_terminal a (hes a (by simp)),
        ih (fun e he => hes e (by simp [he]))]
      rfl

theorem filter_isText_map_error (l : List String) :
    (l.map SDKMessage.error).filter isText = [] := by
  induction l with
  | nil => rfl
  | cons a l ih => simp [isText, ih]

theorem transform_result_no_error_payload (r : SDKIncomingMessage)
    (h2 : r.type = "result")
    (h3 : r.is_error = some true → ∀ errs, r.errors = some errs → errs = []) :
    transformSDKMessage r = [] := by
  unfold transformSDKMessage
  rw [h2, if_neg (by decide), if_neg (by decide), if_pos rfl]
  cases hie : r.is_error with
  | none => rfl
  | some b =>
      cases b with
      | false => rfl
      | true =>
          cases herr : r.errors with
          | none => rfl
          | some errs => rw [h3 hie errs herr]; rfl

/-! Claim theorems. -/

/-- C3: handling the stop command, in every connection state, sends the
client exactly one end message with stop_reason user_stopped and no error
message, clears the registry binding, and is a total operation; a turn
cancelled before any backend event arrived contributes no further
messages from its stream. -/
theorem stop_always_ends_without_error (st : ConnState) :
    sentMessages (handleClientMessage stopCommand st).1
        = [SDKMessage.«end» "user_stopped"]
    ∧ (handleClientMessage stopCommand st).2.bound = none
    ∧ streamMessages [] StreamOutcome.ok = [] := by
  obtain ⟨b, n⟩ := st
  cases b <;> exact ⟨rfl, rfl, rfl⟩

/-- C3 witness: the stop command on a connection with a bound controller. -/
theorem stop_always_ends_without_error_witness :
    sentMessages (handleClientMessage stopCommand ⟨some 3, 4⟩).1
        = [SDKMessage.«end» "user_stopped"]
    ∧ (handleClientMessage stopCommand ⟨some 3, 4⟩).2.bound = none
    ∧ streamMessages [] StreamOutcome.ok = [] :=
  stop_always_ends_without_error ⟨some 3, 4⟩

/-- C4: transforming the assistant tool_use event followed by the user
tool_result event yields exactly the tool_use message then the tool_result
message with is_error false; and an absent tool_use input defaults to the
empty mapping. -/
theorem tool_round_trip :
    transformSDKMessage assistantToolUseEvent
        ++ transformSDKMessage userToolResultEvent
      = [SDKMessage.tool_use (some "t1") (some "Read")
           [("file_path", JsonValue.str "/a.txt")],
         SDKMessage.tool_result (some "t1") "hello" false]
    ∧ transformSDKMessage assistantToolUseNoInputEvent
      = [SDKMessage.tool_use (some "t2") (some "Read") []] :=
  ⟨rfl, rfl⟩

/-- C5: a resume_session command with the sdkSessionId field missing makes
the handler send exactly one error message whose text contains
sdkSessionId, and leaves the connection state (and hence the registry
binding) unchanged. -/
theorem resume_missing_sdkSessionId (st : ConnState) (msg : ClientMessage)
    (ht : msg.type = "resume_session") (hid : msg.sdkSessionId = none) :
    handleClientMessage msg st
        = ([Effect.send (SDKMessage.error "Missing sdkSessionId for resume")],
           st)
    ∧ ∃ p q, "Missing sdkSessionId for resume" = p ++ "sdkSessionId" ++ q := by
  obtain ⟨t, pr, sid⟩ := msg
  subst ht
  subst hid
  exact ⟨rfl, "Missing ", " for resume", rfl⟩

/-- C5 witness: the resume_session command with no sdkSessionId on an idle
connection. -/
theorem resume_missing_sdkSessionId_witness :
    handleClientMessage ⟨"resume_session", none, none⟩ ⟨none, 0⟩
        = ([Effect.send (SDKMessage.error "Missing sdkSessionId for resume")],
           ⟨none, 0⟩)
    ∧ ∃ p q, "Missing sdkSessionId for resume" = p ++ "sdkSessionId" ++ q :=
  resume_missing_sdkSessionId ⟨none, 0⟩ ⟨"resume_session", none, none⟩ rfl rfl

/-- C6 counterexample: a send_message command whose prompt field is present
but empty is rejected with an error and forwards nothing; no controller is
created even though none is bound, contradicting the claim that a present
prompt is always forwarded after auto-creating a controller. -/
theorem send_message_empty_prompt_not_forwarded :
    handleClientMessage ⟨"send_message", some "", none⟩ ⟨none, 0⟩
        = ([Effect.send (SDKMessage.error "Missing required field: prompt")],
           ⟨none, 0⟩)
    ∧ (handleClientMessage ⟨"send_message", some "", none⟩ ⟨none, 0⟩).2.bound
        = none :=
  ⟨rfl, rfl⟩

/-- C6 amended: a send_message command whose prompt is missing or empty
draws exactly one error message and leaves the state unchanged; a
send_message with a nonempty prompt on an idle connection creates a fresh
controller, binds it, and forwards the prompt to it; with a controller
already bound the prompt is forwarded to that controller and the binding
is unchanged. -/
theorem send_message_dispatch (st : ConnState) (i n : Nat) (p : String)
    (hp : p ≠ "") :
    handleClientMessage ⟨"send_message", none, none⟩ st
        = ([Effect.send (SDKMessage.error "Missing required field: prompt")],
           st)
    ∧ handleClientMessage ⟨"send_message", some "", none⟩ st
        = ([Effect.send (SDKMessage.error "Missing required field: prompt")],
           st)
    ∧ handleClientMessage ⟨"send_message", some p, none⟩ ⟨none, n⟩
        = ([Effect.create n, Effect.forward n p], ⟨some n, n + 1⟩)
    ∧ handleClientMessage ⟨"send_message", some p, none⟩ ⟨some i, n⟩
        = ([Effect.forward i p], ⟨some i, n⟩) := by
  refine ⟨rfl, rfl, ?_, ?_⟩ <;>
    simp [handleClientMessage, truthy, hp]

/-- C6 witness: dispatching send_message commands at concrete states with
the nonempty prompt hi. -/
theorem send_message_dispatch_witness :
    handleClientMessage ⟨"send_message", none, none⟩ ⟨none, 5⟩
        = ([Effect.send (SDKMessage.error "Missing required field: prompt")],
           ⟨none, 5⟩)
    ∧ handleClientMessage ⟨"send_message", some "", none⟩ ⟨none, 5⟩
        = ([Effect.send (SDKMessage.error "Missing required field: prompt")],
           ⟨none, 5⟩)
    ∧ handleClientMessage ⟨"send_message", some "hi", none⟩ ⟨none, 4⟩
        = ([Effect.create 4, Effect.forward 4 "hi"], ⟨some 4, 5⟩)
    ∧ handleClientMessage ⟨"send_message", some "hi", none⟩ ⟨some 3, 4⟩
        = ([Effect.forward 3 "hi"], ⟨some 3, 4⟩) :=
  send_message_dispatch ⟨none, 5⟩ 3 4 "hi" (by decide)

/-- C7: sendMessage emits the start message, carrying the session id when
known, as the first message before any backend interaction; a failing
backend send is converted into a single typed error message after the
start message, and sendMessage is a total operation (it never throws). -/
theorem sendMessage_start_first (sid : Option String) (e : String)
    (r : Except String Unit) :
    (sendMessageMessages sid r).head? = some (SDKMessage.start sid)
    ∧ sendMessageMessages sid (Except.error e)
        = [SDKMessage.start sid, SDKMessage.error e]
    ∧ sendMessageMessages sid (Except.ok ())
        = [SDKMessage.start sid] :=
  ⟨rfl, rfl, rfl⟩

/-- C8: create_session closes any previously bound controller before
creating and binding the fresh one; resume_session with a nonempty id does
the same; a transport disconnect closes any bound controller and clears the
registry entry in every state. -/
theorem registry_at_most_one_controller (i n : Nat) (sid : String)
    (hsid : sid ≠ "") :
    handleClientMessage ⟨"create_session", none, none⟩ ⟨some i, n⟩
        = ([Effect.close i, Effect.create n,
            Effect.send SDKMessage.session_created], ⟨some n, n + 1⟩)
    ∧ handleClientMessage ⟨"create_session", none, none⟩ ⟨none, n⟩
        = ([Effect.create n, Effect.send SDKMessage.session_created],
           ⟨some n, n + 1⟩)
    ∧ handleClientMessage ⟨"resume_session", none, some sid⟩ ⟨some i, n⟩
        = ([Effect.close i, Effect.resume n sid,
            Effect.send (SDKMessage.session_resumed sid)], ⟨some n, n + 1⟩)
    ∧ handleDisconnect ⟨some i, n⟩ = ([Effect.close i], ⟨none, n⟩)
    ∧ handleDisconnect ⟨none, n⟩ = ([], ⟨none, n⟩) := by
  refine ⟨rfl, rfl, ?_, rfl, rfl⟩
  simp [handleClientMessage, truthy, closeBound, hsid]

/-- C8 witness: the registry transitions at concrete states. -/
theorem registry_at_most_one_controller_witness :
    handleClientMessage ⟨"create_session", none, none⟩ ⟨some 1, 2⟩
        = ([Effect.close 1, Effect.create 2,
            Effect.send SDKMessage.session_created], ⟨some 2, 3⟩)
    ∧ handleClientMessage ⟨"create_session", none, none⟩ ⟨none, 2⟩
        = ([Effect.create 2, Effect.send SDKMessage.session_created],
           ⟨some 2, 3⟩)
    ∧ handleClientMessage ⟨"resume_session", none, some "s9"⟩ ⟨some 1, 2⟩
        = ([Effect.close 1, Effect.resume 2 "s9",
            Effect.send (SDKMessage.session_resumed "s9")], ⟨some 2, 3⟩)
    ∧ handleDisconnect ⟨some 1, 2⟩ = ([Effect.close 1], ⟨none, 2⟩)
    ∧ handleDisconnect ⟨none, 2⟩ = ([], ⟨none, 2⟩) :=
  registry_at_most_one_controller 1 2 "s9" (by decide)

/-- C1 counterexample: the legacy handleQuery transformer does emit a text
message for a result event of subtype success carrying a result string, so
the legacy pipeline duplicates the final answer: for the stream
[assistant with text X, result success X] it emits two text messages. -/
theorem legacy_result_emits_text :
    transformSDKMessageLegacy resultSuccessXEvent = [SDKMessage.text "X"]
    ∧ ((handleQueryMessages "sid" [assistantTextXEvent, resultSuccessXEvent]
          StreamOutcome.ok).filter isText).length = 2 :=
  ⟨rfl, rfl⟩

/-- C1 amended: the session-path transformer emits no text message for any
result event, even one carrying a final summary string, so the session-path
stream for [assistant with text X, result success X] contains exactly one
text message with content X; the legacy handleQuery transformer does not
share this property. -/
theorem result_event_no_text_session_path :
    (∀ m : SDKIncomingMessage, m.type = "result" →
        (transformSDKMessage m).filter isText = [])
    ∧ (streamMessages [assistantTextXEvent, resultSuccessXEvent]
          StreamOutcome.ok).filter isText = [SDKMessage.text "X"] := by
  constructor
  · intro m hm
    unfold transformSDKMessage
    rw [hm, if_neg (by decide), if_neg (by decide), if_pos rfl]
    cases hie : m.is_error with
    | none => rfl
    | some b =>
        cases b with
        | false => rfl
        | true =>
            cases herr : m.errors with
            | none => rfl
            | some errs => exact filter_isText_map_error errs
  · rfl

/-- C1 witness: the session-path transformer at the concrete success result
event, and the concrete duplicate-free stream. -/
theorem result_event_no_text_session_path_witness :
    (transformSDKMessage resultSuccessXEvent).filter isText = []
    ∧ (streamMessages [assistantTextXEvent, resultSuccessXEvent]
          StreamOutcome.ok).filter isText = [SDKMessage.text "X"] :=
  ⟨result_event_no_text_session_path.1 resultSuccessXEvent rfl,
   result_event_no_text_session_path.2⟩

/-- C2 counterexample: a turn whose terminal result event reports failure
with one error string produces both an error message and an end message —
two terminal messages, contradicting terminal exclusivity as claimed. -/
theorem result_error_event_two_terminals :
    streamMessages [resultErrorEvent] StreamOutcome.ok
        = [SDKMessage.error "boom", SDKMessage.«end» "end_turn"]
    ∧ ((streamMessages [resultErrorEvent] StreamOutcome.ok).filter
          isTerminal).length = 2 :=
  ⟨rfl, rfl⟩

/-- C2 amended: for a turn whose backend events end with a terminal result
event carrying no error strings (no earlier event being a result), the
stream contains exactly one terminal message, the final end marker; for a
turn ended early by a stream failure before any result event, the stream
contains exactly one terminal message, the final error message. -/
theorem turn_terminal_message (es : List SDKIncomingMessage)
    (r : SDKIncomingMessage) (s : String)
    (hes : ∀ e ∈ es, e.type ≠ "result") :
    (r.type = "result" →
      (r.is_error = some true → ∀ errs, r.errors = some errs → errs = []) →
      (streamMessages (es ++ [r]) StreamOutcome.ok).filter isTerminal
          = [SDKMessage.«end» "end_turn"]
        ∧ ∃ pre, pre.filter isTerminal = []
            ∧ streamMessages (es ++ [r]) StreamOutcome.ok
              = pre ++ [SDKMessage.«end» "end_turn"])
    ∧ ((streamMessages es (StreamOutcome.failed s)).filter isTerminal
          = [SDKMessage.error s]
        ∧ ∃ pre, pre.filter isTerminal = []
            ∧ streamMessages es (StreamOutcome.failed s)
              = pre ++ [SDKMessage.error s]) := by
  constructor
  · intro h2 h3
    have ht : transformSDKMessage r = [] :=
      transform_result_no_error_payload r h2 h3
    have hstream : streamMessages (es ++ [r]) StreamOutcome.ok
        = es.flatMap streamEventMessages ++ [SDKMessage.«end» "end_turn"] := by
      simp [streamMessages, streamEventMessages, List.flatMap_append,
        List.flatMap_cons, ht, h2]
    constructor
    · rw [hstream, List.filter_append, events_no_terminal es hes]
      rfl
    · exact ⟨es.flatMap streamEventMessages,
        events_no_terminal es hes, hstream⟩
  · constructor
    · show (es.flatMap streamEventMessages
          ++ [SDKMessage.error s]).filter isTerminal = _
      rw [List.filter_append, events_no_terminal es hes]
      rfl
    · exact ⟨es.flatMap streamEventMessages,
        events_no_terminal es hes, rfl⟩

/-- C2 witness: the one-event turn ending with a clean success result, and
the empty turn ended by a stream failure. -/
theorem turn_terminal_message_witness :
    ((streamMessages ([] ++ [resultCleanEvent]) StreamOutcome.ok).filter
          isTerminal = [SDKMessage.«end» "end_turn"]
      ∧ ∃ pre, pre.filter isTerminal = []
          ∧ streamMessages ([] ++ [resultCleanEvent]) StreamOutcome.ok
            = pre ++ [SDKMessage.«end» "end_turn"])
    ∧ ((streamMessages [] (StreamOutcome.failed "boom")).filter isTerminal
          = [SDKMessage.error "boom"]
        ∧ ∃ pre, pre.filter isTerminal = []
            ∧ streamMessages [] (StreamOutcome.failed "boom")
              = pre ++ [SDKMessage.error "boom"]) := by
  have h := turn_terminal_message [] resultCleanEvent "boom" (by simp)
  exact ⟨h.1 rfl (fun hie => nomatch hie), h.2⟩

/-- The lookup of a key removed by a key-based filter is empty. -/
theorem lookup_filter_ne (k : String) (σ : SessionStore) :
    (σ.filter (fun entry => entry.1 ≠ k)).lookup k = none := by
  induction σ with
  | nil => rfl
  | cons a σ ih =>
      obtain ⟨k₁, v⟩ := a
      by_cases h : k₁ = k
      · simp only [List.filter_cons]
        rw [if_neg (by simp [h])]
        exact ih
      · simp only [List.filter_cons]
        rw [if_pos (by simp [h])]
        simp only [List.lookup]
        rw [show (k == k₁) = false from beq_eq_false_iff_ne.mpr
          (fun hk => h hk.symm)]
        exact ih

/-- C9: saving a session record and reading back its id returns an equal
record, and deleting an id then reading it reports not-found. -/
theorem session_store_round_trip (S : Session) (σ : SessionStore)
    (id : String) :
    getSession S.id (saveSession S σ) = some S
    ∧ getSession id (deleteSession id σ).2 = none := by
  constructor
  · show List.lookup _ ((getSessionPath S.id, S) :: σ) = some S
    simp [List.lookup]
  · exact lookup_filter_ne (getSessionPath id) σ

/-- C10: the key sanitization of the session store is not injective: the
distinct ids a/b and a_b share one sanitized path, a record saved under
a/b is returned by a get of a_b, and in general the put/get round trip
distinguishes ids only up to sanitization. -/
theorem sanitization_not_injective :
    sanitizeId "a/b" = "a_b"
    ∧ ("a/b" : String) ≠ "a_b"
    ∧ (∀ σ : SessionStore,
        getSession "a_b" (saveSession collisionSession σ)
          = some collisionSession)
    ∧ (∀ k₁ k₂ : String, sanitizeId k₁ = sanitizeId k₂ →
        ∀ σ : SessionStore, getSession k₁ σ = getSession k₂ σ) := by
  refine ⟨rfl, by decide, fun σ => rfl, fun k₁ k₂ h σ => ?_⟩
  unfold getSession getSessionPath
  rw [h]

/-- C10 witness: the ids a/b and a_b are indistinguishable to getSession on
every store, applied to the empty store. -/
theorem sanitization_not_injective_witness :
    getSession "a/b" ([] : SessionStore)
      = getSession "a_b" ([] : SessionStore) :=
  sanitization_not_injective.2.2.2 "a/b" "a_b" (by decide) []

end Agentweb
